import Mathlib

/-!
Verification of the state-selection core (searchers) and the
partial-validity utilities of a symbolic-execution engine.

The solver utilities are translated from lib/Solver/SolverUtil.cpp.
The MergingSearcher wrapper is translated from lib/Core/Searcher.h.
Functions that reach a fatal assertion in the C++ source are embedded as
Option-valued functions returning none on the fatal branch.
Execution states are represented by their stable integer id (Nat).
-/

/-- PartialValidity enumeration (PValidity), as in klee/Solver/SolverUtil.h:
six-valued extension of classical validity. -/
inductive PValidity where
  | MustBeTrue
  | MustBeFalse
  | MayBeTrue
  | MayBeFalse
  | TrueOrFalse
  | None
deriving DecidableEq

/-- Validity enumeration: total (three-valued) validity. -/
inductive Validity where
  | True
  | False
  | Unknown
deriving DecidableEq

/-- Kind of a SolverResponse: ValidResponse, InvalidResponse or
UnknownResponse, as discriminated by the isa tests in SolverUtil.cpp. -/
inductive SolverResponseKind where
  | Valid
  | Invalid
  | Unknown
deriving DecidableEq

/-- Translated from fromPartial in lib/Solver/SolverUtil.cpp: the switch
returns a Validity for MustBeTrue, MustBeFalse and TrueOrFalse and hits
assert(0) on the default branch (modelled as none). -/
def fromPartial : PValidity → Option Validity
  | PValidity.MustBeTrue => some Validity.True
  | PValidity.MustBeFalse => some Validity.False
  | PValidity.TrueOrFalse => some Validity.Unknown
  | _ => none

/-- Translated from toPartial in lib/Solver/SolverUtil.cpp: total switch
over the three Validity values, no fatal branch. -/
def toPartial : Validity → PValidity
  | Validity.True => PValidity.MustBeTrue
  | Validity.False => PValidity.MustBeFalse
  | Validity.Unknown => PValidity.TrueOrFalse

/-- Translated from negatePartialValidity in lib/Solver/SolverUtil.cpp:
the switch handles the five enumerators MustBeTrue, MustBeFalse,
MayBeTrue, MayBeFalse and TrueOrFalse; every other value, in particular
PValidity.None, falls into the default branch which is assert(0)
(modelled as none). -/
def negatePartialValidity : PValidity → Option PValidity
  | PValidity.MustBeTrue => some PValidity.MustBeFalse
  | PValidity.MustBeFalse => some PValidity.MustBeTrue
  | PValidity.MayBeTrue => some PValidity.MayBeFalse
  | PValidity.MayBeFalse => some PValidity.MayBeTrue
  | PValidity.TrueOrFalse => some PValidity.TrueOrFalse
  | PValidity.None => none

/-- Translated from pValidityEvaluation in lib/Solver/SolverUtil.cpp:
the if-chain over the isa kinds of the two solver responses; the final
else branch is assert(0 && "unreachable") (modelled as none). -/
def pValidityEvaluation (queryRes negativeQueryRes : SolverResponseKind) :
    Option PValidity :=
  if queryRes = SolverResponseKind.Valid ∧
      negativeQueryRes = SolverResponseKind.Invalid then
    some PValidity.MustBeTrue
  else if queryRes = SolverResponseKind.Invalid ∧
      negativeQueryRes = SolverResponseKind.Valid then
    some PValidity.MustBeFalse
  else if queryRes = SolverResponseKind.Invalid ∧
      negativeQueryRes = SolverResponseKind.Invalid then
    some PValidity.TrueOrFalse
  else if queryRes = SolverResponseKind.Invalid ∧
      negativeQueryRes = SolverResponseKind.Unknown then
    some PValidity.MayBeFalse
  else if queryRes = SolverResponseKind.Unknown ∧
      negativeQueryRes = SolverResponseKind.Invalid then
    some PValidity.MayBeTrue
  else if queryRes = SolverResponseKind.Unknown ∧
      negativeQueryRes = SolverResponseKind.Unknown then
    some PValidity.None
  else
    none

/-- C2: pValidityEvaluation returns MustBeTrue on (Valid, Invalid),
MustBeFalse on (Invalid, Valid), TrueOrFalse on (Invalid, Invalid),
MayBeFalse on (Invalid, Unknown), MayBeTrue on (Unknown, Invalid) and
None on (Unknown, Unknown), and reaches the fatal unreachable assertion
(none) on (Valid, Valid) and (Unknown, Valid). -/
theorem pValidityEvaluation_table :
    pValidityEvaluation SolverResponseKind.Valid SolverResponseKind.Invalid =
      some PValidity.MustBeTrue ∧
    pValidityEvaluation SolverResponseKind.Invalid SolverResponseKind.Valid =
      some PValidity.MustBeFalse ∧
    pValidityEvaluation SolverResponseKind.Invalid SolverResponseKind.Invalid =
      some PValidity.TrueOrFalse ∧
    pValidityEvaluation SolverResponseKind.Invalid SolverResponseKind.Unknown =
      some PValidity.MayBeFalse ∧
    pValidityEvaluation SolverResponseKind.Unknown SolverResponseKind.Invalid =
      some PValidity.MayBeTrue ∧
    pValidityEvaluation SolverResponseKind.Unknown SolverResponseKind.Unknown =
      some PValidity.None ∧
    pValidityEvaluation SolverResponseKind.Valid SolverResponseKind.Valid =
      none ∧
    pValidityEvaluation SolverResponseKind.Unknown SolverResponseKind.Valid =
      none := by
  decide

/-- C5: fromPartial maps MustBeTrue to Validity.True, MustBeFalse to
Validity.False, TrueOrFalse to Validity.Unknown, and reaches a fatal
assertion (none) on MayBeTrue, MayBeFalse and None. -/
theorem fromPartial_table :
    fromPartial PValidity.MustBeTrue = some Validity.True ∧
    fromPartial PValidity.MustBeFalse = some Validity.False ∧
    fromPartial PValidity.TrueOrFalse = some Validity.Unknown ∧
    fromPartial PValidity.MayBeTrue = none ∧
    fromPartial PValidity.MayBeFalse = none ∧
    fromPartial PValidity.None = none := by
  decide

/-- C9: for every Validity value v, fromPartial (toPartial v) = some v;
the round trip is the identity and never reaches the fatal branch of
fromPartial. -/
theorem fromPartial_toPartial_id :
    ∀ v : Validity, fromPartial (toPartial v) = some v := by
  intro v
  cases v <;> rfl

/-- C10 counterexample: the claim says negatePartialValidity never
reaches its fatal default branch on any of the six PValidity
enumerators, but on PValidity.None the switch falls into the default
branch, which is assert(0): the function is fatal there (none). -/
theorem negatePartialValidity_fatal_on_none :
    negatePartialValidity PValidity.None = none := by
  decide

/-- C10 (amended): negatePartialValidity swaps MustBeTrue with
MustBeFalse and MayBeTrue with MayBeFalse, maps TrueOrFalse to itself,
is fatal on PValidity.None, and applying it twice returns the original
value for every input other than None. -/
theorem negatePartialValidity_involution (pv : PValidity)
    (h : pv ≠ PValidity.None) :
    (negatePartialValidity pv).bind negatePartialValidity = some pv ∧
    negatePartialValidity PValidity.MustBeTrue = some PValidity.MustBeFalse ∧
    negatePartialValidity PValidity.MustBeFalse = some PValidity.MustBeTrue ∧
    negatePartialValidity PValidity.MayBeTrue = some PValidity.MayBeFalse ∧
    negatePartialValidity PValidity.MayBeFalse = some PValidity.MayBeTrue ∧
    negatePartialValidity PValidity.TrueOrFalse = some PValidity.TrueOrFalse ∧
    negatePartialValidity PValidity.None = none := by
  cases pv <;> simp_all <;> decide

/-- Witness for C10 at the concrete input MustBeTrue. -/
theorem negatePartialValidity_involution_witness :
    (negatePartialValidity PValidity.MustBeTrue).bind negatePartialValidity =
      some PValidity.MustBeTrue :=
  (negatePartialValidity_involution PValidity.MustBeTrue (by decide)).1

/-- Modelled from the spec: DFSSearcher::update removes every element of
removedStates from the state sequence, erasing the (first) occurrence of
each and failing fatally (assert, modelled as none) when a removed state
is not present. The implementation file Searcher.cpp is not part of the
sources; lib/Core/Searcher.h documents the vector of states, and the
spec (sect. 4.2, 7) gives the removal and membership-check behaviour. -/
def dfsRemove : List Nat → List Nat → Option (List Nat)
  | states, [] => some states
  | states, r :: rs =>
    if r ∈ states then dfsRemove (states.erase r) rs else none

/-- Modelled from the spec: DFSSearcher::update appends addedStates in
the order given and then removes every element of removedStates; the
states vector is kept in insertion order (lib/Core/Searcher.h doc
comment and spec sect. 4.2). The current argument is not used. -/
def dfsUpdate (states : List Nat) (current : Option Nat)
    (added removed : List Nat) : Option (List Nat) :=
  dfsRemove (states ++ added) removed

/-- Modelled from the spec: DFSSearcher::selectState returns the last
state of the sequence (lib/Core/Searcher.h doc comment: the last state
is selected for further exploration); fatal on an empty searcher. -/
def dfsSelect (states : List Nat) : Option Nat :=
  states.getLast?

/-- Translated from DFSSearcher::empty in lib/Core/Searcher.h:
returns states.empty(). -/
def dfsEmpty (states : List Nat) : Bool :=
  states.isEmpty

/-- MergingSearcher state, from lib/Core/Searcher.h: the owned base
searcher (instantiated here with the DFS model, represented by its
states vector) and the pausedStates vector. States are their ids. -/
structure MergingSearcher where
  baseStates : List Nat
  pausedStates : List Nat
deriving DecidableEq

/-- Test of the guard in MergingSearcher::update: std::find of current
over pausedStates; current is a possibly-null pointer (none models
nullptr, which is never an element of pausedStates). -/
def currentInPaused (paused : List Nat) : Option Nat → Bool
  | none => false
  | some c => decide (c ∈ paused)

/-- Translated from MergingSearcher::update in lib/Core/Searcher.h: the
base searcher is updated with the unchanged arguments if and only if
current is not found in pausedStates; otherwise nothing happens. -/
def MergingSearcher.update (ms : MergingSearcher) (current : Option Nat)
    (added removed : List Nat) : Option MergingSearcher :=
  if currentInPaused ms.pausedStates current then
    some ms
  else
    (dfsUpdate ms.baseStates current added removed).map
      (fun b => { ms with baseStates := b })

/-- Translated from MergingSearcher::pauseState in lib/Core/Searcher.h:
assert the state is not already paused (fatal otherwise, modelled as
none), push it onto pausedStates, and remove it from the base searcher
via update(nullptr, \x7b\x7d, \x7bstate\x7d). -/
def MergingSearcher.pauseState (ms : MergingSearcher) (s : Nat) :
    Option MergingSearcher :=
  if s ∈ ms.pausedStates then
    none
  else
    (dfsUpdate ms.baseStates none [] [s]).map
      (fun b => { baseStates := b, pausedStates := ms.pausedStates ++ [s] })

/-- Translated from MergingSearcher::continueState in
lib/Core/Searcher.h: assert the state is paused (fatal otherwise,
modelled as none), erase it from pausedStates, and re-add it to the base
searcher via update(nullptr, \x7bstate\x7d, \x7b\x7d). -/
def MergingSearcher.continueState (ms : MergingSearcher) (s : Nat) :
    Option MergingSearcher :=
  if s ∈ ms.pausedStates then
    (dfsUpdate ms.baseStates none [s] []).map
      (fun b => { baseStates := b, pausedStates := ms.pausedStates.erase s })
  else
    none

/-- Translated from MergingSearcher::empty in lib/Core/Searcher.h:
returns baseSearcher->empty(), ignoring pausedStates. -/
def MergingSearcher.emptyQ (ms : MergingSearcher) : Bool :=
  dfsEmpty ms.baseStates

/-- Modelled from the spec: SelectNSearcher (the N-select wrapper used
by unittests/UniqueStates/UniqueStatesTest.cpp, not present in the
sources) delegates selection to its DFS base and removes each selected
state before the next selection, so consecutive selections are pairwise
distinct (spec sect. 8, uniqueness scenarios). One selection step:
select the DFS state and remove it from the base. -/
def selectNStep (states : List Nat) : Option (Nat × List Nat) :=
  match dfsSelect states with
  | none => none
  | some s => (dfsRemove states [s]).map (fun st => (s, st))

/-- Run k consecutive selections of the N-select wrapper, collecting the
selected state ids in order. -/
def runSelectN : Nat → List Nat → Option (List Nat)
  | 0, _ => some []
  | k + 1, states =>
    match selectNStep states with
    | none => none
    | some (s, st) => (runSelectN k st).map (fun rest => s :: rest)

/-- Five update calls, each adding one state, starting from the empty
DFS searcher, as in the DFSn unit test of
unittests/UniqueStates/UniqueStatesTest.cpp. -/
def addOneAtATime (ids : List Nat) : Option (List Nat) :=
  ids.foldl (fun acc i => acc.bind (fun st => dfsUpdate st none [i] [])) (some [])

/-- Helper: a successful dfsRemove yields the set difference of the
populations and preserves Nodup. -/
theorem dfsRemove_toFinset :
    ∀ (removed states out : List Nat), states.Nodup →
      dfsRemove states removed = some out →
      out.toFinset = states.toFinset \ removed.toFinset ∧ out.Nodup := by
  intro removed
  induction removed with
  | nil =>
    intro states out hnd h
    simp only [dfsRemove, Option.some.injEq] at h
    subst h
    simp [hnd]
  | cons r rs ih =>
    intro states out hnd h
    simp only [dfsRemove] at h
    by_cases hr : r ∈ states
    · rw [if_pos hr] at h
      obtain ⟨h1, h2⟩ := ih (states.erase r) out (hnd.erase r) h
      refine ⟨?_, h2⟩
      rw [h1]
      ext a
      simp only [Finset.mem_sdiff, List.mem_toFinset, hnd.mem_erase_iff,
        List.toFinset_cons, Finset.mem_insert]
      tauto
    · rw [if_neg hr] at h
      exact absurd h (by simp)

/-- C6 counterexample: the claim quantifies over every searcher, but
the MergingSearcher of lib/Core/Searcher.h violates the population
equation at a legal input. With base population [], paused set [1],
current = state 1, added = [2] and removed = [], the update succeeds
yet drops the call to the base, so the population stays empty instead
of becoming (P union A) minus R = \x7b2\x7d, and empty() still reports
true although the equation demands a non-empty population. -/
theorem merging_population_equation_fails :
    MergingSearcher.update ⟨[], [1]⟩ (some 1) [2] [] = some ⟨[], [1]⟩ ∧
    ([] : List Nat).toFinset ≠
      ((([] : List Nat).toFinset ∪ ([2] : List Nat).toFinset) \
        ([] : List Nat).toFinset) ∧
    MergingSearcher.emptyQ ⟨[], [1]⟩ = true := by
  refine ⟨by decide, ?_, by decide⟩
  decide

/-- C6 (amended): for the DFS base searcher, after a legal successful
update(c, A, R) the population equals (P union A) minus R; c is not
implicitly removed, and the searcher is empty exactly when the
population is empty. Wrapper searchers need not satisfy this equation:
the MergingSearcher drops the whole update when current is paused. -/
theorem searcher_update_population (states added removed : List Nat)
    (current : Option Nat) (out : List Nat)
    (hnd : (states ++ added).Nodup)
    (h : dfsUpdate states current added removed = some out) :
    out.toFinset = (states.toFinset ∪ added.toFinset) \ removed.toFinset ∧
    (dfsEmpty out = true ↔ out.toFinset = ∅) := by
  obtain ⟨h1, _⟩ := dfsRemove_toFinset removed (states ++ added) out hnd h
  refine ⟨?_, ?_⟩
  · rw [h1, List.toFinset_append]
  · simp [dfsEmpty, List.isEmpty_iff, List.toFinset_eq_empty_iff]

/-- Witness for C6 (amended) at states [1, 2], added [3], removed [1]. -/
theorem searcher_update_population_witness :
    ([2, 3] : List Nat).toFinset =
      (([1, 2] : List Nat).toFinset ∪ ([3] : List Nat).toFinset) \
        ([1] : List Nat).toFinset ∧
    (dfsEmpty [2, 3] = true ↔ ([2, 3] : List Nat).toFinset = ∅) :=
  searcher_update_population [1, 2] [3] [1] none [2, 3] (by decide) (by decide)

/-- C4: calling pauseState on a state already in the paused set is a
fatal contract violation (the assertion fails, modelled as none);
pauseState never silently succeeds on an already-paused state. -/
theorem merging_pause_paused_fatal (ms : MergingSearcher) (s : Nat)
    (h : s ∈ ms.pausedStates) :
    ms.pauseState s = none := by
  simp [MergingSearcher.pauseState, h]

/-- Witness for C4 at the searcher with paused set [3] and state 3. -/
theorem merging_pause_paused_fatal_witness :
    MergingSearcher.pauseState ⟨[], [3]⟩ 3 = none :=
  merging_pause_paused_fatal ⟨[], [3]⟩ 3 (by decide)

/-- C3: for a state s not paused and present in the base population,
pauseState then continueState leaves s out of the paused set, leaves the
paused set as it was, and restores the base population (as a multiset,
hence as a set). -/
theorem merging_pause_continue_id (ms : MergingSearcher) (s : Nat)
    (hp : s ∉ ms.pausedStates) (hb : s ∈ ms.baseStates) :
    ∃ ms', (ms.pauseState s).bind (fun m => m.continueState s) = some ms' ∧
      ms'.pausedStates = ms.pausedStates ∧
      s ∉ ms'.pausedStates ∧
      ms'.baseStates.Perm ms.baseStates := by
  refine ⟨⟨ms.baseStates.erase s ++ [s], ms.pausedStates⟩, ?_, rfl, hp, ?_⟩
  · simp [MergingSearcher.pauseState, MergingSearcher.continueState,
      dfsUpdate, dfsRemove, hp, hb, List.erase_append_right _ hp]
  · exact (List.perm_append_singleton s _).trans (List.perm_cons_erase hb).symm

/-- Witness for C3 at base [4, 6], paused [], state 6. -/
theorem merging_pause_continue_id_witness :
    ∃ ms', ((MergingSearcher.pauseState ⟨[4, 6], []⟩ 6).bind
        (fun m => m.continueState 6)) = some ms' ∧
      ms'.pausedStates = [] ∧
      6 ∉ ms'.pausedStates ∧
      ms'.baseStates.Perm [4, 6] :=
  merging_pause_continue_id ⟨[4, 6], []⟩ 6 (by decide) (by decide)

/-- C1 counterexample: with paused set [1], an update with current =
state 1, added = [2] and removed = [] leaves the searcher, in particular
the base population, completely unchanged (still []); the claimed
rewritten call update(none, [2], []) on the base would instead have
produced the population [2]. The added set is therefore not applied to
the base when current is paused. -/
theorem merging_update_paused_counterexample :
    MergingSearcher.update ⟨[], [1]⟩ (some 1) [2] [] = some ⟨[], [1]⟩ ∧
    dfsUpdate [] none [2] [] = some [2] := by
  constructor
  · decide
  · decide

/-- C1 (amended): when current is a paused state the whole update call
is dropped: the base searcher receives no call at all and neither added
nor removed is applied to it; when current is not paused the call is
forwarded to the base unchanged. -/
theorem merging_update_forwarding (ms : MergingSearcher)
    (current : Option Nat) (added removed : List Nat) :
    (currentInPaused ms.pausedStates current = true →
      ms.update current added removed = some ms) ∧
    (currentInPaused ms.pausedStates current = false →
      ms.update current added removed =
        (dfsUpdate ms.baseStates current added removed).map
          (fun b => { ms with baseStates := b })) := by
  constructor <;> intro h <;> simp [MergingSearcher.update, h]

/-- Witness for C1 (amended) at the paused-current input of the
counterexample. -/
theorem merging_update_forwarding_witness :
    MergingSearcher.update ⟨[], [1]⟩ (some 1) [2] [] = some ⟨[], [1]⟩ :=
  (merging_update_forwarding ⟨[], [1]⟩ (some 1) [2] []).1 (by decide)

/-- C8: MergingSearcher::empty returns the emptiness of its base
searcher only; a searcher whose paused set is non-empty but whose base
holds no states reports empty. -/
theorem merging_empty_ignores_paused (ms : MergingSearcher)
    (hb : ms.baseStates = []) (hp : ms.pausedStates ≠ []) :
    ms.emptyQ = true := by
  simp [MergingSearcher.emptyQ, dfsEmpty, hb]

/-- Witness for C8 at the searcher with empty base and paused set [7]. -/
theorem merging_empty_ignores_paused_witness :
    MergingSearcher.emptyQ ⟨[], [7]⟩ = true :=
  merging_empty_ignores_paused ⟨[], [7]⟩ rfl (by decide)

/-- C7: starting from the empty DFS-based searcher, adding states with
ids 1..5 one at a time by five update calls and then performing five
consecutive selections (each selected state removed before the next
selection) yields the ids 5, 4, 3, 2, 1 in that order, all pairwise
distinct. -/
theorem dfs_selectN_five :
    (addOneAtATime [1, 2, 3, 4, 5]).bind (runSelectN 5) =
      some [5, 4, 3, 2, 1] ∧
    ([5, 4, 3, 2, 1] : List Nat).Nodup := by
  constructor
  · decide
  · decide
